import Mathlib

/-!
Shallow embedding of the coastal-threat-alert backend core:
report ingestion (backend/routes/reports.js), alert lifecycle and
active-alert querying (backend/routes/alerts.js, shipped inside
backend/services/notificationService.js), over the mongoose data
model (backend/models/index.js).

Modelling conventions: JavaScript numbers are embedded as exact
rationals, timestamps (Date.now() milliseconds) as naturals, user and
report identifiers as naturals.  Free-text fields (title, description,
eta, source, affectedPopulation, evacuationZones) are observed by no
modelled operation and are omitted from the structures.  The geospatial
store is treated as a range-query capability: a membership predicate
withinKm is passed to the operations that issue a centerSphere query.
-/

namespace CoastalAlerts

/-- Report severity enum of ReportSchema and AlertSchema. -/
inductive Severity
  | low
  | medium
  | high
  | critical
  deriving DecidableEq, Repr

/-- Report type enum of ReportSchema. -/
inductive ReportType
  | erosion
  | pollution
  | weather
  | wildlife
  | infrastructure
  | tsunami
  | other
  deriving DecidableEq, Repr

/-- The string name of a report type, as stored by mongoose. -/
def ReportType.toStr : ReportType → String
  | .erosion => "erosion"
  | .pollution => "pollution"
  | .weather => "weather"
  | .wildlife => "wildlife"
  | .infrastructure => "infrastructure"
  | .tsunami => "tsunami"
  | .other => "other"

/-- A request-body location object with lat and lng fields, as parsed
from req.body.location (reports) or req.body.coordinates (alerts). -/
structure LocationInput where
  lat : ℚ
  lng : ℚ
  deriving DecidableEq, Repr

/-- JavaScript truthiness of a number: the check !x succeeds exactly
when the number is 0 (NaN does not arise for exact rationals). -/
def truthy (q : ℚ) : Bool := q != 0

/-- A stored GeoJSON point; the source stores the ordered pair
[longitude, latitude] in the coordinates array. -/
structure GeoPoint where
  lng : ℚ
  lat : ℚ
  deriving DecidableEq, Repr

/-- The votes sub-document of ReportSchema. -/
structure Votes where
  helpful : Nat
  notHelpful : Nat
  voters : List Nat
  deriving DecidableEq, Repr

/-- The aiAnalysis sub-document of ReportSchema; only the confidence
field is read by the modelled operations. -/
structure AIAnalysis where
  confidence : ℚ
  deriving DecidableEq, Repr

/-- A persisted Report (ReportSchema), restricted to the fields the
modelled operations read or write.  Attachments are kept as the list of
stored filenames; only the length of the list is observed. -/
structure Report where
  userId : Nat
  type : ReportType
  severity : Severity
  location : GeoPoint
  attachments : List String
  aiAnalysis : Option AIAnalysis
  votes : Votes
  createdAt : Nat
  deriving DecidableEq, Repr

/-- A persisted Alert (AlertSchema), restricted to the fields the
modelled operations read or write.  The type field of an alert is kept
as the stored string since auto-generated alerts copy the report type
string. -/
structure Alert where
  type : String
  severity : Severity
  coordinates : GeoPoint
  radius : ℚ
  confidence : Option ℚ
  aiPrediction : Bool
  active : Bool
  createdAt : Nat
  updatedAt : Nat
  expiresAt : Option Nat
  deriving DecidableEq, Repr

/-- A User (UserSchema), restricted to the fields the modelled
operations read: identity, stored location point, and the
preferences.notifications.community opt-in flag. -/
structure User where
  id : Nat
  location : GeoPoint
  communityPref : Bool
  deriving DecidableEq, Repr

/-- One hour in milliseconds. -/
def HOUR_MS : Nat := 60 * 60 * 1000

/-- 24 hours in milliseconds, the literal 24 * 60 * 60 * 1000 of the
alert-creation route. -/
def DAY_MS : Nat := 24 * 60 * 60 * 1000

/-- The pointsMap table of the report-submission route together with
the fallback pointsMap[type] || 10 for a type missing from the table
(only the key other is missing; wildlife is present with value 10). -/
def pointsMap : ReportType → Nat
  | .erosion => 15
  | .pollution => 20
  | .weather => 25
  | .wildlife => 10
  | .infrastructure => 15
  | .tsunami => 50
  | .other => 10

/-- The severityMultiplier table of the report-submission route. -/
def severityMultiplier : Severity → ℚ
  | .low => 1
  | .medium => 1.2
  | .high => 1.5
  | .critical => 2

/-- Math.floor((basePoints + evidenceBonus) * severityMultiplier):
the totalPoints computation of the report-submission route, with
evidenceBonus = attachments.length * 5. -/
def totalPoints (t : ReportType) (s : Severity) (attachCount : Nat) : ℤ :=
  ((pointsMap t + 5 * attachCount : ℚ) * severityMultiplier s).floor

/-- checkAndUpdateStreak of reports.js, as a function of the two report
counts it queries and the current streak: if the user has a report
today then the streak is incremented when a report also exists
yesterday and reset to 1 otherwise; with no report today the user
document is not saved and the streak is unchanged. -/
def checkAndUpdateStreak (todayReports yesterdayReports streak : Nat) : Nat :=
  if todayReports > 0 then
    if yesterdayReports > 0 then streak + 1 else 1
  else streak

/-- The vote route of reports.js.  Rejects with status 400 when the
voter list already contains the user; otherwise increments the matching
tally, appends the voter, and credits the author 2 points only for a
helpful vote.  The result carries the saved report and the point
increment applied to the author. -/
def voteOnReport (r : Report) (userId : Nat) (helpful : Bool) :
    Except String (Report × Nat) :=
  if userId ∈ r.votes.voters then
    .error "You have already voted on this report"
  else
    let votes :=
      if helpful then
        { r.votes with
          helpful := r.votes.helpful + 1
          voters := r.votes.voters ++ [userId] }
      else
        { r.votes with
          notHelpful := r.votes.notHelpful + 1
          voters := r.votes.voters ++ [userId] }
    .ok ({ r with votes := votes }, if helpful then 2 else 0)

/-- The request body of the alert-creation route.  The route
destructures type, severity, coordinates, radius, confidence and
aiPrediction (plus the omitted free-text fields); a duration field, if
sent, is carried here to record that the route never reads it. -/
structure CreateAlertBody where
  type : String
  severity : Severity
  coordinates : Option LocationInput
  radius : ℚ
  confidence : Option ℚ := none
  aiPrediction : Bool := false
  duration : Option String := none
  deriving DecidableEq, Repr

/-- The alert-creation route (POST of alerts.js): rejects when
coordinates are absent or coordinates.lat or coordinates.lng is falsy,
otherwise saves an alert whose stored point is [lng, lat] and whose
expiresAt is unconditionally Date.now() + 24 * 60 * 60 * 1000. -/
def createAlert (body : CreateAlertBody) (now : Nat) : Except String Alert :=
  match body.coordinates with
  | none => .error "Valid coordinates required"
  | some c =>
    if truthy c.lat && truthy c.lng then
      .ok
        { type := body.type
          severity := body.severity
          coordinates := { lng := c.lng, lat := c.lat }
          radius := body.radius
          confidence := body.confidence
          aiPrediction := body.aiPrediction
          active := true
          createdAt := now
          updatedAt := now
          expiresAt := some (now + DAY_MS) }
    else .error "Valid coordinates required"

/-- A partial update document for the alert-update route.  The route
spreads the whole request body, so any schema field may appear; the
fields the modelled alert carries are represented, each optional. -/
structure AlertPatch where
  type : Option String := none
  severity : Option Severity := none
  radius : Option ℚ := none
  confidence : Option ℚ := none
  active : Option Bool := none
  expiresAt : Option Nat := none
  deriving DecidableEq, Repr

/-- The alert-update route (PUT of alerts.js):
findByIdAndUpdate(id, spread of req.body with updatedAt stamped to
now).  Every field present in the patch replaces the stored value;
absent fields are untouched; updatedAt is always re-stamped. -/
def updateAlert (a : Alert) (p : AlertPatch) (now : Nat) : Alert :=
  { a with
    type := p.type.getD a.type
    severity := p.severity.getD a.severity
    radius := p.radius.getD a.radius
    confidence := match p.confidence with
      | some c => some c
      | none => a.confidence
    active := p.active.getD a.active
    expiresAt := match p.expiresAt with
      | some e => some e
      | none => a.expiresAt
    updatedAt := now }

/-- The alert-deactivation route (DELETE of alerts.js):
findByIdAndUpdate(id, active false, updatedAt now). -/
def deactivateAlert (a : Alert) (now : Nat) : Alert :=
  { a with active := false, updatedAt := now }

/-- The filter of the active-alerts listing (GET of alerts.js): the
query requires active true and either expiresAt strictly greater than
the query time or no expiresAt stored at all. -/
def activeAlertFilter (now : Nat) (a : Alert) : Bool :=
  a.active &&
    match a.expiresAt with
    | some e => decide (now < e)
    | none => true

/-- The active-alerts listing over a store of alerts.  The route
additionally narrows by optional severity, type and location query
parameters and presents the result sorted and truncated to 50 entries;
the base filter that decides activeness is modelled. -/
def activeAlertQuery (alerts : List Alert) (now : Nat) : List Alert :=
  alerts.filter (activeAlertFilter now)

/-- autoGenerateAlert of reports.js: bails out when an aiAnalysis is
present with confidence below 80 (the optional-chaining comparison is
false when the analysis is absent), otherwise saves an alert copying
the report type, severity and location, with radius 25, aiPrediction
true and a 12 hour expiry. -/
def autoGenerateAlert (r : Report) (now : Nat) : Option Alert :=
  if (match r.aiAnalysis with
      | some ai => decide (ai.confidence < 80)
      | none => false) then
    none
  else
    some
      { type := r.type.toStr
        severity := r.severity
        coordinates := r.location
        radius := 25
        confidence := r.aiAnalysis.map (fun ai => ai.confidence)
        aiPrediction := true
        active := true
        createdAt := now
        updatedAt := now
        expiresAt := some (now + 12 * HOUR_MS) }

/-- notifyNearbyUsers of reports.js: low-severity reports notify no
one; otherwise the users notified are those the store returns for the
10 km centerSphere query around the report location who have
preferences.notifications.community set and whose id differs from the
report author. -/
def notifyNearbyUsers (withinKm : GeoPoint → GeoPoint → ℚ → Bool)
    (users : List User) (r : Report) : List User :=
  if r.severity = .low then []
  else
    users.filter (fun u =>
      withinKm u.location r.location 10 && u.communityPref &&
        u.id != r.userId)

/-- The request body of the report-submission route, restricted to the
fields the modelled logic reads. -/
structure SubmitRequest where
  type : ReportType
  severity : Severity
  location : Option LocationInput
  attachments : List String
  deriving DecidableEq, Repr

/-- The observable outcome of one report submission: the persisted
report, the points credited to the author, the alerts generated by
auto-escalation, and the ids of the nearby users notified. -/
structure SubmitResult where
  report : Report
  pointsEarned : ℤ
  generatedAlerts : List Alert
  notifiedUserIds : List Nat
  deriving DecidableEq, Repr

/-- The report document the submission route saves: stored point
[lng, lat], pending votes, and the AI-analysis result attached by the
second save (none when the external analyzeReport call failed, a
non-fatal condition). -/
def buildReport (req : SubmitRequest) (loc : LocationInput)
    (ai : Option AIAnalysis) (userId now : Nat) : Report :=
  { userId := userId
    type := req.type
    severity := req.severity
    location := { lng := loc.lng, lat := loc.lat }
    attachments := req.attachments
    aiAnalysis := ai
    votes := { helpful := 0, notHelpful := 0, voters := [] }
    createdAt := now }

/-- The auto-escalation step of the submission route: autoGenerateAlert
is invoked exactly when severity is critical and the optional-chained
analysis confidence exceeds 80 (false when the analysis is absent). -/
def escalationAlerts (r : Report) (now : Nat) : List Alert :=
  if r.severity = .critical &&
      (match r.aiAnalysis with
       | some a => decide (80 < a.confidence)
       | none => false) then
    (autoGenerateAlert r now).toList
  else []

/-- The report-submission route (POST of reports.js).  Rejects before
any save when the parsed location is absent or its lat or lng is
falsy.  Otherwise persists the report, credits totalPoints to the
author, auto-escalates via escalationAlerts, and notifies nearby
users.  Streak and achievement bookkeeping read per-user store counts
and are modelled separately (checkAndUpdateStreak). -/
def submitReport (req : SubmitRequest) (ai : Option AIAnalysis)
    (withinKm : GeoPoint → GeoPoint → ℚ → Bool) (users : List User)
    (userId : Nat) (now : Nat) : Except String SubmitResult :=
  match req.location with
  | none => .error "Valid location coordinates required"
  | some loc =>
    if truthy loc.lat && truthy loc.lng then
      .ok
        { report := buildReport req loc ai userId now
          pointsEarned := totalPoints req.type req.severity req.attachments.length
          generatedAlerts := escalationAlerts (buildReport req loc ai userId now) now
          notifiedUserIds :=
            (notifyNearbyUsers withinKm users (buildReport req loc ai userId now)).map
              (fun u => u.id) }
    else .error "Valid location coordinates required"

/-! Concrete sample inputs used by witnesses and counterexamples. -/

/-- An active stored alert used to exercise the update route. -/
def alertC1 : Alert :=
  { type := "flood"
    severity := .high
    coordinates := { lng := 72, lat := 19 }
    radius := 50
    confidence := some 90
    aiPrediction := false
    active := true
    createdAt := 0
    updatedAt := 0
    expiresAt := some DAY_MS }

/-- A report submission whose longitude 200 lies outside [-180, 180]. -/
def reqC2 : SubmitRequest :=
  { type := .pollution
    severity := .medium
    location := some { lat := 10, lng := 200 }
    attachments := [] }

/-- A report submission whose latitude -91 and longitude 181 are both
out of range. -/
def reqC2b : SubmitRequest :=
  { type := .erosion
    severity := .high
    location := some { lat := -91, lng := 181 }
    attachments := [] }

/-- An alert-creation body whose latitude 95 lies outside [-90, 90]. -/
def bodyC2 : CreateAlertBody :=
  { type := "flood"
    severity := .high
    coordinates := some { lat := 95, lng := -200 }
    radius := 40 }

/-- An alert-creation body that carries a caller-specified duration. -/
def bodyC3 : CreateAlertBody :=
  { type := "cyclone"
    severity := .high
    coordinates := some { lat := 19, lng := 72 }
    radius := 30
    duration := some "6 hours" }

/-- The alert the creation route saves for bodyC3 at time 5. -/
def alertC3 : Alert :=
  { type := "cyclone"
    severity := .high
    coordinates := { lng := 72, lat := 19 }
    radius := 30
    confidence := none
    aiPrediction := false
    active := true
    createdAt := 5
    updatedAt := 5
    expiresAt := some (5 + DAY_MS) }

/-- A critical report submission that the AI scores at confidence 85. -/
def reqC4 : SubmitRequest :=
  { type := .pollution
    severity := .critical
    location := some { lat := 9, lng := 76 }
    attachments := [] }

/-- The alert auto-generated for reqC4 at time 0. -/
def alertC4 : Alert :=
  { type := "pollution"
    severity := .critical
    coordinates := { lng := 76, lat := 9 }
    radius := 25
    confidence := some 85
    aiPrediction := true
    active := true
    createdAt := 0
    updatedAt := 0
    expiresAt := some (0 + 12 * HOUR_MS) }

/-- The submission outcome for reqC4 with AI confidence 85, no nearby
users, author id 1, time 0. -/
def resC4 : SubmitResult :=
  { report :=
      { userId := 1
        type := .pollution
        severity := .critical
        location := { lng := 76, lat := 9 }
        attachments := []
        aiAnalysis := some { confidence := 85 }
        votes := { helpful := 0, notHelpful := 0, voters := [] }
        createdAt := 0 }
    pointsEarned := 40
    generatedAlerts := [alertC4]
    notifiedUserIds := [] }

/-- The submission outcome for reqC4 when the AI confidence is only
75: same report and points, but no escalation. -/
def resC4b : SubmitResult :=
  { report :=
      { userId := 1
        type := .pollution
        severity := .critical
        location := { lng := 76, lat := 9 }
        attachments := []
        aiAnalysis := some { confidence := 75 }
        votes := { helpful := 0, notHelpful := 0, voters := [] }
        createdAt := 0 }
    pointsEarned := 40
    generatedAlerts := []
    notifiedUserIds := [] }

/-- A weather report of high severity with three attachments. -/
def reqC5 : SubmitRequest :=
  { type := .weather
    severity := .high
    location := some { lat := 9, lng := 76 }
    attachments := ["a", "b", "c"] }

/-- The submission outcome for reqC5: 60 points, no escalation. -/
def resC5 : SubmitResult :=
  { report :=
      { userId := 1
        type := .weather
        severity := .high
        location := { lng := 76, lat := 9 }
        attachments := ["a", "b", "c"]
        aiAnalysis := none
        votes := { helpful := 0, notHelpful := 0, voters := [] }
        createdAt := 0 }
    pointsEarned := 60
    generatedAlerts := []
    notifiedUserIds := [] }

/-- A report on which user 4 has already voted. -/
def reportC7 : Report :=
  { userId := 2
    type := .erosion
    severity := .medium
    location := { lng := 72, lat := 19 }
    attachments := []
    aiAnalysis := none
    votes := { helpful := 3, notHelpful := 1, voters := [4] }
    createdAt := 0 }

/-- The body the active-alerts witness creates its alert from. -/
def bodyC8 : CreateAlertBody :=
  { type := "storm_surge"
    severity := .critical
    coordinates := some { lat := 13, lng := 80 }
    radius := 60 }

/-- The alert the creation route saves for bodyC8 at time 0. -/
def alertC8 : Alert :=
  { type := "storm_surge"
    severity := .critical
    coordinates := { lng := 80, lat := 13 }
    radius := 60
    confidence := none
    aiPrediction := false
    active := true
    createdAt := 0
    updatedAt := 0
    expiresAt := some (0 + DAY_MS) }

/-- A report submission whose latitude is exactly 0 (on the equator). -/
def reqC9 : SubmitRequest :=
  { type := .weather
    severity := .medium
    location := some { lat := 0, lng := 77 }
    attachments := [] }

/-- A medium-severity report by user 3 used for the notify witness. -/
def reportC10 : Report :=
  { userId := 3
    type := .weather
    severity := .medium
    location := { lng := 72, lat := 19 }
    attachments := []
    aiAnalysis := none
    votes := { helpful := 0, notHelpful := 0, voters := [] }
    createdAt := 0 }

/-- A low-severity variant of reportC10. -/
def reportC10low : Report :=
  { reportC10 with severity := .low }

/-- A user pool containing the author of reportC10 (id 3) and two
other users, all opted into community notifications. -/
def usersC10 : List User :=
  [ { id := 3, location := { lng := 72, lat := 19 }, communityPref := true },
    { id := 4, location := { lng := 72, lat := 19 }, communityPref := true },
    { id := 5, location := { lng := 72, lat := 19 }, communityPref := false } ]

/-! Theorems settling the claims. -/

/-- C6: after a report submission, a user with a report today and a
report yesterday has the streak incremented by exactly 1; a user with
a report today but none yesterday gets streak exactly 1 regardless of
the prior value; with no report today the streak is unchanged. -/
theorem streak_update_rule (t y s : Nat) :
    (0 < t → 0 < y → checkAndUpdateStreak t y s = s + 1)
    ∧ (0 < t → y = 0 → checkAndUpdateStreak t y s = 1)
    ∧ (t = 0 → checkAndUpdateStreak t y s = s) := by
  refine ⟨fun ht hy => ?_, fun ht hy => ?_, fun ht => ?_⟩
  · simp [checkAndUpdateStreak, ht, hy]
  · simp [checkAndUpdateStreak, ht, hy]
  · simp [checkAndUpdateStreak, ht]

/-- C6 witness: streak 5 with reports both days becomes 6; streak 7
with a report only today becomes 1; streak 4 with no report today
stays 4. -/
theorem streak_update_rule_w :
    checkAndUpdateStreak 1 1 5 = 6
    ∧ checkAndUpdateStreak 1 0 7 = 1
    ∧ checkAndUpdateStreak 0 3 4 = 4 :=
  ⟨(streak_update_rule 1 1 5).1 (by decide) (by decide),
   (streak_update_rule 1 0 7).2.1 (by decide) rfl,
   (streak_update_rule 0 3 4).2.2 rfl⟩

/-- C7: voting twice as the same user is rejected with no mutation;
a first vote increments exactly the matching tally, appends the voter,
and credits the author 2 points exactly for a helpful vote. -/
theorem vote_dedup_and_tally (r : Report) (uid : Nat) (helpful : Bool) :
    (uid ∈ r.votes.voters →
       voteOnReport r uid helpful =
         .error "You have already voted on this report")
    ∧ (uid ∉ r.votes.voters →
       voteOnReport r uid helpful =
         .ok ({ r with votes :=
             { helpful := r.votes.helpful + (if helpful then 1 else 0)
               notHelpful := r.votes.notHelpful + (if helpful then 0 else 1)
               voters := r.votes.voters ++ [uid] } },
           if helpful then 2 else 0)) := by
  constructor
  · intro h
    simp [voteOnReport, h]
  · intro h
    cases helpful <;> simp [voteOnReport, h]

/-- C7 witness: user 4 voting again on reportC7 is rejected; user 9
voting helpful succeeds with the helpful tally going from 3 to 4 and a
2-point author bonus. -/
theorem vote_dedup_and_tally_w :
    voteOnReport reportC7 4 true =
      .error "You have already voted on this report"
    ∧ voteOnReport reportC7 9 true =
      .ok ({ reportC7 with votes :=
          { helpful := reportC7.votes.helpful + (if true then 1 else 0)
            notHelpful := reportC7.votes.notHelpful + (if true then 0 else 1)
            voters := reportC7.votes.voters ++ [9] } },
        if true then 2 else 0) :=
  ⟨(vote_dedup_and_tally reportC7 4 true).1 (by decide),
   (vote_dedup_and_tally reportC7 9 true).2 (by decide)⟩

/-- C9: a submitted location whose latitude or longitude equals 0 is
rejected with the validation error before any save, because the
JavaScript presence check treats the number 0 as missing. -/
theorem zero_coordinate_rejected (req : SubmitRequest)
    (ai : Option AIAnalysis) (wk : GeoPoint → GeoPoint → ℚ → Bool)
    (users : List User) (uid now : Nat) (loc : LocationInput)
    (hl : req.location = some loc) (h0 : loc.lat = 0 ∨ loc.lng = 0) :
    submitReport req ai wk users uid now =
      .error "Valid location coordinates required" := by
  unfold submitReport
  rw [hl]
  rcases h0 with h | h <;> simp [truthy, h]

/-- C9 witness: a report at latitude 0, longitude 77 is rejected with
the validation error. -/
theorem zero_coordinate_rejected_w :
    submitReport reqC9 none (fun _ _ _ => false) [] 2 5 =
      .error "Valid location coordinates required" :=
  zero_coordinate_rejected reqC9 none (fun _ _ _ => false) [] 2 5
    { lat := 0, lng := 77 } rfl (Or.inl rfl)

/-- C5: every submission credits the author exactly
floor((basePoints(type) + 5 * attachmentCount) * severityMultiplier),
with the multiplier table low 1, medium 1.2, high 1.5, critical 2; a
weather report of high severity with 3 attachments yields 60 points. -/
theorem points_award_formula (req : SubmitRequest) (ai : Option AIAnalysis)
    (wk : GeoPoint → GeoPoint → ℚ → Bool) (users : List User)
    (uid now : Nat) (res : SubmitResult)
    (h : submitReport req ai wk users uid now = .ok res) :
    res.pointsEarned = totalPoints req.type req.severity req.attachments.length
    ∧ (∀ t s a, totalPoints t s a =
        ((pointsMap t + 5 * a : ℚ) * severityMultiplier s).floor)
    ∧ severityMultiplier .low = 1 ∧ severityMultiplier .medium = 1.2
    ∧ severityMultiplier .high = 1.5 ∧ severityMultiplier .critical = 2
    ∧ totalPoints .weather .high 3 = 60 := by
  refine ⟨?_, fun t s a => rfl, rfl, rfl, rfl, rfl,
    by norm_num [totalPoints, pointsMap, severityMultiplier, Rat.floor_def']⟩
  unfold submitReport at h
  split at h
  · simp at h
  · split at h
    · injection h with h2
      subst h2
      rfl
    · simp at h

/-- C5 witness: submitting reqC5 (weather, high, 3 attachments) earns
exactly 60 points. -/
theorem points_award_formula_w :
    resC5.pointsEarned = totalPoints .weather .high 3
    ∧ totalPoints .weather .high 3 = 60 :=
  have happ := points_award_formula reqC5 none (fun _ _ _ => false) [] 1 0
    resC5 (by
      norm_num [submitReport, reqC5, truthy, buildReport, escalationAlerts,
        notifyNearbyUsers, totalPoints, pointsMap, severityMultiplier,
        Rat.floor_def', resC5])
  ⟨happ.1, happ.2.2.2.2.2.2⟩

/-- C10: nearby-user notification never reaches the author: for a
report of severity other than low, the notified set is exactly the
users within the 10 km query who opted into community notifications
and whose id differs from the author; low-severity reports notify no
one. -/
theorem nearby_notify_excludes_author (wk : GeoPoint → GeoPoint → ℚ → Bool)
    (users : List User) (r : Report) :
    (r.severity ≠ .low →
       notifyNearbyUsers wk users r =
         users.filter (fun u =>
           wk u.location r.location 10 && u.communityPref && u.id != r.userId)
       ∧ ∀ u ∈ notifyNearbyUsers wk users r, u.id ≠ r.userId)
    ∧ (r.severity = .low → notifyNearbyUsers wk users r = []) := by
  constructor
  · intro h
    refine ⟨by simp [notifyNearbyUsers, h], ?_⟩
    intro u hu
    unfold notifyNearbyUsers at hu
    rw [if_neg h] at hu
    have hp := List.of_mem_filter hu
    simp only [Bool.and_eq_true, bne_iff_ne] at hp
    exact hp.2
  · intro h
    simp [notifyNearbyUsers, h]

/-- C10 witness: for the medium-severity reportC10 the notified set is
the filtered user pool, and the low-severity variant notifies no one. -/
theorem nearby_notify_excludes_author_w :
    notifyNearbyUsers (fun _ _ _ => true) usersC10 reportC10 =
      usersC10.filter (fun u =>
        (fun _ _ _ => true) u.location reportC10.location 10 && u.communityPref &&
          u.id != reportC10.userId)
    ∧ notifyNearbyUsers (fun _ _ _ => true) usersC10 reportC10low = [] :=
  ⟨((nearby_notify_excludes_author (fun _ _ _ => true) usersC10 reportC10).1
      (by decide)).1,
   (nearby_notify_excludes_author (fun _ _ _ => true) usersC10 reportC10low).2 rfl⟩

/-- C8: membership in the active-alerts query is exactly active = true
together with a strictly later expiry, for every alert that carries an
expiry (every alert the creation paths build does); an alert created
at time T with the default TTL is listed at T plus one hour and not
listed at T plus 25 hours. -/
theorem active_query_exactness :
    (∀ (alerts : List Alert) (now : Nat), ∀ a ∈ alerts, ∀ e,
       a.expiresAt = some e →
       (a ∈ activeAlertQuery alerts now ↔ (a.active = true ∧ now < e)))
    ∧ (∀ (body : CreateAlertBody) (T : Nat) (a : Alert) (alerts : List Alert),
       createAlert body T = .ok a → a ∈ alerts →
       a ∈ activeAlertQuery alerts (T + HOUR_MS)
       ∧ a ∉ activeAlertQuery alerts (T + 25 * HOUR_MS)) := by
  have hmem : ∀ (alerts : List Alert) (now : Nat) (a : Alert), a ∈ alerts →
      ∀ e, a.expiresAt = some e →
      (a ∈ activeAlertQuery alerts now ↔ (a.active = true ∧ now < e)) := by
    intro alerts now a ha e he
    simp [activeAlertQuery, List.mem_filter, activeAlertFilter, he, ha]
  constructor
  · intro alerts now a ha e he
    exact hmem alerts now a ha e he
  · intro body T a alerts hc ha
    unfold createAlert at hc
    split at hc
    · simp at hc
    · split at hc
      · injection hc with h2
        subst h2
        constructor
        · exact (hmem _ _ _ ha _ rfl).2
            ⟨rfl, by simp only [HOUR_MS, DAY_MS]; omega⟩
        · intro hin
          have hlt := ((hmem _ _ _ ha _ rfl).1 hin).2
          simp only [HOUR_MS, DAY_MS] at hlt
          omega
      · simp at hc

/-- C8 witness: alertC8, created at time 0 with the default 24 h TTL,
is in the active listing at one hour and out of it at 25 hours. -/
theorem active_query_exactness_w :
    alertC8 ∈ activeAlertQuery [alertC8] (0 + HOUR_MS)
    ∧ alertC8 ∉ activeAlertQuery [alertC8] (0 + 25 * HOUR_MS) :=
  active_query_exactness.2 bodyC8 0 alertC8 [alertC8]
    (by norm_num [createAlert, bodyC8, truthy, alertC8])
    (List.mem_singleton.mpr rfl)

/-- C4: a submission auto-generates exactly one alert, with radius 25,
a 12 hour expiry and aiPrediction set, exactly when severity is
critical and the AI confidence strictly exceeds 80; in every other
case (non-critical severity, confidence at most 80, or no analysis) no
alert is generated, and a single submission never generates more than
one alert. -/
theorem escalation_rule (req : SubmitRequest) (ai : Option AIAnalysis)
    (wk : GeoPoint → GeoPoint → ℚ → Bool) (users : List User) (uid now : Nat)
    (res : SubmitResult)
    (h : submitReport req ai wk users uid now = .ok res) :
    (req.severity = .critical → ∀ an, ai = some an → 80 < an.confidence →
       res.generatedAlerts.length = 1
       ∧ ∀ al ∈ res.generatedAlerts,
           al.radius = 25 ∧ al.expiresAt = some (now + 12 * HOUR_MS)
           ∧ al.aiPrediction = true ∧ al.active = true)
    ∧ (req.severity ≠ .critical → res.generatedAlerts = [])
    ∧ (∀ an, ai = some an → an.confidence ≤ 80 → res.generatedAlerts = [])
    ∧ (ai = none → res.generatedAlerts = [])
    ∧ res.generatedAlerts.length ≤ 1 := by
  unfold submitReport at h
  split at h
  · simp at h
  · split at h
    · injection h with h2
      subst h2
      refine ⟨?_, ?_, ?_, ?_, ?_⟩
      · intro hcrit an hai hconf
        have hnot : ¬ an.confidence < 80 := not_lt.mpr (le_of_lt hconf)
        constructor
        · simp [escalationAlerts, buildReport, hcrit, hai, hconf,
            autoGenerateAlert, hnot]
        · intro al hal
          simp [escalationAlerts, buildReport, hcrit, hai, hconf,
            autoGenerateAlert, hnot] at hal
          subst hal
          exact ⟨rfl, rfl, rfl, rfl⟩
      · intro hne
        simp [escalationAlerts, buildReport, hne]
      · intro an hai hle
        have hnot : ¬ (80 : ℚ) < an.confidence := not_lt.mpr hle
        simp [escalationAlerts, buildReport, hai, hnot]
      · intro hai
        simp [escalationAlerts, buildReport, hai]
      · show (escalationAlerts _ _).length ≤ 1
        unfold escalationAlerts
        split
        · cases autoGenerateAlert (buildReport _ _ ai _ _) now <;> simp
        · simp
    · simp at h

/-- C4 witness: the critical submission reqC4 with AI confidence 85
generates exactly one alert, and the identical submission with
confidence 75 generates none. -/
theorem escalation_rule_w :
    resC4.generatedAlerts.length = 1 ∧ resC4b.generatedAlerts = [] :=
  ⟨((escalation_rule reqC4 (some { confidence := 85 }) (fun _ _ _ => false)
      [] 1 0 resC4
      (by norm_num [submitReport, reqC4, truthy, buildReport, escalationAlerts,
        autoGenerateAlert, notifyNearbyUsers, totalPoints, pointsMap,
        severityMultiplier, Rat.floor_def', resC4, alertC4, HOUR_MS,
        ReportType.toStr])).1
      rfl { confidence := 85 } rfl (by norm_num)).1,
   (escalation_rule reqC4 (some { confidence := 75 }) (fun _ _ _ => false)
      [] 1 0 resC4b
      (by norm_num [submitReport, reqC4, truthy, buildReport, escalationAlerts,
        autoGenerateAlert, notifyNearbyUsers, totalPoints, pointsMap,
        severityMultiplier, Rat.floor_def', resC4b, HOUR_MS])).2.2.1
      { confidence := 75 } rfl (by norm_num)⟩

/-- C1 counterexample: alertC1 deactivated via the deactivation route
is reactivated by an update whose patch sets active to true — the
update route spreads the request body with no resurrection guard. -/
theorem update_resurrects_deactivated_alert :
    (deactivateAlert alertC1 1000).active = false
    ∧ (updateAlert (deactivateAlert alertC1 1000)
        { active := some true } 2000).active = true :=
  ⟨rfl, rfl⟩

/-- C1 amended: an update whose patch does not mention the active
field leaves a deactivated alert deactivated; only a patch explicitly
setting active can change the flag. -/
theorem update_keeps_inactive_without_active_patch (a : Alert)
    (p : AlertPatch) (now : Nat) (hp : p.active = none)
    (ha : a.active = false) :
    (updateAlert a p now).active = false := by
  simp [updateAlert, hp, ha]

/-- C1 amended witness: updating the deactivated alertC1 with a patch
that only changes severity leaves it deactivated. -/
theorem update_keeps_inactive_without_active_patch_w :
    (updateAlert (deactivateAlert alertC1 1000)
      { severity := some .low } 3000).active = false :=
  update_keeps_inactive_without_active_patch (deactivateAlert alertC1 1000)
    { severity := some .low } 3000 rfl rfl

/-- C2 counterexample: a report whose longitude is 200 (outside
[-180, 180]) is accepted and persisted with the out-of-range point
stored verbatim, and an alert whose latitude is 95 (outside [-90, 90])
is likewise accepted — no range validation happens anywhere. -/
theorem oob_coordinates_accepted :
    ((submitReport reqC2 none (fun _ _ _ => false) [] 7 0).map
        fun res => res.report.location)
      = .ok { lng := 200, lat := 10 }
    ∧ ((createAlert bodyC2 0).map fun a => a.coordinates)
      = .ok { lng := -200, lat := 95 } := by
  constructor
  · norm_num [submitReport, reqC2, truthy, buildReport, Except.map]
  · norm_num [createAlert, bodyC2, truthy, Except.map]

/-- C2 amended: the location check of both submission paths only
requires lat and lng to be present and non-zero (JavaScript
truthiness); any such pair, in range or not, is accepted and stored
verbatim as [lng, lat], never clamped. -/
theorem nonzero_coords_accepted_verbatim (loc : LocationInput)
    (hlat : loc.lat ≠ 0) (hlng : loc.lng ≠ 0) :
    (∀ (req : SubmitRequest) (ai : Option AIAnalysis)
       (wk : GeoPoint → GeoPoint → ℚ → Bool) (users : List User)
       (uid now : Nat), req.location = some loc →
       ((submitReport req ai wk users uid now).map
           fun res => res.report.location)
         = .ok { lng := loc.lng, lat := loc.lat })
    ∧ (∀ (body : CreateAlertBody) (now : Nat),
       body.coordinates = some loc →
       ((createAlert body now).map fun a => a.coordinates)
         = .ok { lng := loc.lng, lat := loc.lat }) := by
  constructor
  · intro req ai wk users uid now hl
    unfold submitReport
    rw [hl]
    simp [truthy, hlat, hlng, buildReport, Except.map]
  · intro body now hc
    unfold createAlert
    rw [hc]
    simp [truthy, hlat, hlng, Except.map]

/-- C2 amended witness: latitude -91 with longitude 181, both out of
range, are accepted and stored verbatim. -/
theorem nonzero_coords_accepted_verbatim_w :
    ((submitReport reqC2b none (fun _ _ _ => false) [] 7 0).map
        fun res => res.report.location)
      = .ok { lng := 181, lat := -91 } :=
  (nonzero_coords_accepted_verbatim { lat := -91, lng := 181 }
      (by norm_num) (by norm_num)).1 reqC2b none (fun _ _ _ => false) [] 7 0 rfl

/-- C3 counterexample: an alert created from a body that specifies a
duration still gets expiresAt equal to createdAt plus 24 hours, which
differs from the 6 hour duration the caller asked for — the route
never reads the duration. -/
theorem duration_ignored :
    bodyC3.duration = some "6 hours"
    ∧ ((createAlert bodyC3 1000).map fun a => a.expiresAt)
      = .ok (some (1000 + DAY_MS))
    ∧ 1000 + DAY_MS ≠ 1000 + 6 * HOUR_MS := by
  refine ⟨rfl, ?_, by simp only [DAY_MS, HOUR_MS]; omega⟩
  norm_num [createAlert, bodyC3, truthy, Except.map]

/-- C3 amended: every alert the creation route accepts has expiresAt
equal to its creation time plus 24 hours, regardless of the request
body. -/
theorem create_expiry_always_24h (body : CreateAlertBody) (now : Nat)
    (a : Alert) (h : createAlert body now = .ok a) :
    a.expiresAt = some (now + DAY_MS) ∧ a.createdAt = now := by
  unfold createAlert at h
  split at h
  · simp at h
  · split at h
    · injection h with h2
      subst h2
      exact ⟨rfl, rfl⟩
    · simp at h

/-- C3 amended witness: alertC3, created from bodyC3 at time 5,
expires exactly at 5 plus 24 hours. -/
theorem create_expiry_always_24h_w :
    alertC3.expiresAt = some (5 + DAY_MS) ∧ alertC3.createdAt = 5 :=
  create_expiry_always_24h bodyC3 5 alertC3
    (by norm_num [createAlert, bodyC3, truthy, alertC3])

end CoastalAlerts
